import Mathlib

/-!
Verification of the single-file-component Vite plugin (two variants:
`vite-plugin-sfc.js` and the unnamed variant `part_001`).

The HTML parser (`node-html-parser`) is an external black box: a parsed
component file is modelled as the lists of `<template>`, `<script>` and
`<style>` element contents in document order, and `querySelector` returns
the first element of the corresponding list.  The CSS and JS minifiers are
external pure functions `String → String` and are passed as parameters.
All string-building code is transcribed from the JavaScript sources.
-/

/-- The JavaScript `\s` character class (the members relevant here):
whitespace and line-terminator characters. -/
def jsWs (c : Char) : Bool :=
  c == ' ' || c == '\t' || c == '\n' || c == '\r' || c == '\x0b' || c == '\x0c' ||
  c == '\u00A0' || c == '\u2028' || c == '\u2029' || c == '\uFEFF'

/-- Model of the JavaScript global regex replacement
`str.replace(/\s\s+/g, ' ')` on the character list of `str`: scanning left
to right, every maximal run of two or more `\s` characters is replaced by a
single space; a lone whitespace character is left as it is. -/
def collapseRun : List Char → List Char
  | [] => []
  | c :: rest =>
    if jsWs c then
      match rest with
      | [] => [c]
      | d :: rest2 =>
        if jsWs d then ' ' :: collapseRun (List.dropWhile jsWs rest2)
        else c :: collapseRun (d :: rest2)
    else c :: collapseRun rest
termination_by l => l.length
decreasing_by
  · simp only [List.length_cons]
    have h := (List.dropWhile_sublist (l := rest2) jsWs).length_le
    omega
  · simp only [List.length_cons]; omega
  · simp only [List.length_cons]; omega

/-- String version of `collapseRun`: the `.replace(/\s\s+/g, ' ')` call
applied to a template's inner HTML. -/
def collapseWs (s : String) : String := String.mk (collapseRun s.data)

/-- Model of JavaScript `String.prototype.trim`: removes leading and
trailing `\s` characters. -/
def jsTrim (s : String) : String :=
  String.mk (((s.data.dropWhile jsWs).reverse.dropWhile jsWs).reverse)

/-- `noDoubleWs l = true` iff `l` contains no two consecutive whitespace
characters, i.e. no run of two-or-more whitespace characters. -/
def noDoubleWs : List Char → Bool
  | [] => true
  | [_] => true
  | c :: d :: rest => !(jsWs c && jsWs d) && noDoubleWs (d :: rest)

lemma noDoubleWs_cons (c : Char) (X : List Char)
    (hX : noDoubleWs X = true)
    (hpair : ∀ d, X.head? = some d → (jsWs c && jsWs d) = false) :
    noDoubleWs (c :: X) = true := by
  cases X with
  | nil => rfl
  | cons d Y =>
    show (!(jsWs c && jsWs d) && noDoubleWs (d :: Y)) = true
    have h := hpair d rfl
    simp [h, hX]

lemma head_dropWhile_jsWs (l : List Char) :
    ∀ c, (List.dropWhile jsWs l).head? = some c → jsWs c = false := by
  intro c hc
  have h := List.head?_dropWhile_not jsWs l
  rw [hc] at h
  exact h

lemma collapseRun_nil : collapseRun [] = [] := by
  simp [collapseRun]

lemma collapseRun_cons_neg (a : Char) (t : List Char) (ha : jsWs a = false) :
    collapseRun (a :: t) = a :: collapseRun t := by
  rw [collapseRun.eq_def]
  simp [ha]

lemma collapseRun_head (l : List Char)
    (h : ∀ c, l.head? = some c → jsWs c = false) :
    ∀ c, (collapseRun l).head? = some c → jsWs c = false := by
  intro c hc
  cases l with
  | nil => rw [collapseRun_nil] at hc; simp at hc
  | cons a t =>
    have ha : jsWs a = false := h a rfl
    rw [collapseRun_cons_neg a t ha] at hc
    simp only [List.head?_cons, Option.some.injEq] at hc
    rw [← hc]; exact ha

lemma noDoubleWs_collapseRun_aux :
    ∀ (n : Nat) (l : List Char), l.length ≤ n → noDoubleWs (collapseRun l) = true := by
  intro n
  induction n with
  | zero =>
    intro l h
    have hl : l = [] := List.eq_nil_of_length_eq_zero (Nat.le_zero.mp h)
    subst hl; rw [collapseRun_nil]; rfl
  | succ n ih =>
    intro l h
    cases l with
    | nil => rw [collapseRun_nil]; rfl
    | cons a t =>
      by_cases ha : jsWs a = true
      · cases t with
        | nil =>
          have : collapseRun [a] = [a] := by rw [collapseRun.eq_def]; simp [ha]
          rw [this]; rfl
        | cons b t2 =>
          by_cases hb : jsWs b = true
          · have heq : collapseRun (a :: b :: t2) =
                ' ' :: collapseRun (List.dropWhile jsWs t2) := by
              rw [collapseRun.eq_def]; simp [ha, hb]
            rw [heq]
            have hlen : (List.dropWhile jsWs t2).length ≤ n := by
              have := (List.dropWhile_sublist (l := t2) jsWs).length_le
              simp only [List.length_cons] at h
              omega
            refine noDoubleWs_cons _ _ (ih _ hlen) ?_
            intro d hd
            have hdw := collapseRun_head _ (head_dropWhile_jsWs t2) d hd
            simp [hdw]
          · have hb' : jsWs b = false := by simpa using hb
            have heq : collapseRun (a :: b :: t2) = a :: collapseRun (b :: t2) := by
              rw [collapseRun.eq_def]; simp [ha, hb']
            rw [heq]
            have hlen : (b :: t2).length ≤ n := by
              simp only [List.length_cons] at h ⊢; omega
            refine noDoubleWs_cons _ _ (ih _ hlen) ?_
            intro d hd
            rw [collapseRun_cons_neg b t2 hb'] at hd
            simp only [List.head?_cons, Option.some.injEq] at hd
            rw [← hd]; simp [hb']
      · have ha' : jsWs a = false := by simpa using ha
        rw [collapseRun_cons_neg a t ha']
        have hlen : t.length ≤ n := by
          simp only [List.length_cons] at h; omega
        refine noDoubleWs_cons _ _ (ih _ hlen) ?_
        intro d _
        simp [ha']

lemma noDoubleWs_collapseWs (s : String) : noDoubleWs (collapseWs s).data = true :=
  noDoubleWs_collapseRun_aux s.data.length s.data (Nat.le_refl _)

/-- A component file as returned by the HTML parser (external black box
`node-html-parser`): the contents of its `<template>`, `<script>` and
`<style>` elements in document order.  `querySelector` on a tag name
returns the first element of the corresponding list (`List.head?`). -/
structure ParsedDoc where
  templates : List String
  scripts : List String
  styles : List String
deriving DecidableEq

/-- The aggregation state `data` of both plugin variants:
`{ script: '', style: '', template: '' }`. -/
structure Data where
  script : String
  style : String
  template : String
deriving DecidableEq

/-- The initial aggregation state of a fresh plugin instance. -/
def emptyData : Data := { script := "", style := "", template := "" }

/-- The template-injection statement built in `extractTags` of
`part_001`:
`'document.querySelectorAll("' + filename + '").forEach(function(e){' +
 'e.innerHTML = \x60' + templateHTML + '\x60' + '})\n'`. -/
def templateInjection (filename templateHTML : String) : String :=
  "document.querySelectorAll(\x22" ++ filename ++ "\x22).forEach(function(e)\x7b" ++
    "e.innerHTML = `" ++ templateHTML ++ "`" ++ "\x7d)\n"

/-- The template-injection statement built inline in `extractTags` of
`vite-plugin-sfc.js` (same concatenation as in `part_001`). -/
def templateInjectionSfc (filename collapsedHTML : String) : String :=
  "document.querySelectorAll(\x22" ++ filename ++ "\x22).forEach(function(e)\x7b" ++
    "e.innerHTML = `" ++ collapsedHTML ++ "`" ++ "\x7d)\n"

/-- The script-wrapper statement built in `extractTags` of `part_001`:
`'document.querySelectorAll("' + filename + '").forEach(function(' +
 filename + '){' + scriptContent + '})\n'`. -/
def scriptWrapper (filename scriptContent : String) : String :=
  "document.querySelectorAll(\x22" ++ filename ++ "\x22).forEach(function(" ++
    filename ++ ")\x7b" ++ scriptContent ++ "\x7d)\n"

/-- `extractTags` of `part_001` (lines 142-181): appends the template
injection code, the wrapped trimmed script (only when non-empty after
trimming), and the raw style text to the aggregation state. -/
def extractTags (filename : String) (root : ParsedDoc) (data : Data) : Data :=
  let data1 :=
    match root.templates.head? with
    | some tpl =>
      let templateHTML := collapseWs tpl
      { data with template := data.template ++ templateInjection filename templateHTML }
    | none => data
  let data2 :=
    match root.scripts.head? with
    | some s =>
      let scriptContent := jsTrim s
      if scriptContent ≠ "" then
        { data1 with script := data1.script ++ scriptWrapper filename scriptContent }
      else data1
    | none => data1
  match root.styles.head? with
  | some st => { data2 with style := data2.style ++ st }
  | none => data2

/-- `extractTags` of `vite-plugin-sfc.js` (lines 146-173): appends the
template injection code, the raw (untrimmed, unwrapped) script text plus a
newline, and the raw style text to the aggregation state. -/
def extractTagsSfc (filename : String) (root : ParsedDoc) (data : Data) : Data :=
  let data1 :=
    match root.templates.head? with
    | some tpl =>
      { data with template := data.template ++ templateInjectionSfc filename (collapseWs tpl) }
    | none => data
  let data2 :=
    match root.scripts.head? with
    | some s => { data1 with script := data1.script ++ s ++ "\n" }
    | none => data1
  match root.styles.head? with
  | some st => { data2 with style := data2.style ++ st }
  | none => data2

/-- One entry of a directory listing (`fs.readdirSync`): the file name and
its parsed content. -/
structure DirEntry where
  fname : String
  doc : ParsedDoc
deriving DecidableEq

/-- Model of the JavaScript `String.prototype.endsWith` test used in the
`.filter(f => f.endsWith('.html'))` calls. -/
def jsEndsWith (s suffix : String) : Bool :=
  List.isSuffixOf suffix.data s.data

/-- `path.basename(filepath, '.html')` applied to a listed file name:
strips the `.html` suffix (the directory part never reaches this point
because the names come from a listing of the component directory). -/
def basenameNoHtml (s : String) : String :=
  if jsEndsWith s ".html" then String.mk (s.data.take (s.data.length - 5)) else s

/-- The shared scan loop of `part_001`:
`readdirSync(...).filter(f => f.endsWith('.html')).forEach(file => extractTags(filepath, data))`. -/
def scanDir (files : List DirEntry) (data : Data) : Data :=
  (files.filter (fun f => jsEndsWith f.fname ".html")).foldl
    (fun d f => extractTags (basenameNoHtml f.fname) f.doc d) data

/-- The same scan loop in `vite-plugin-sfc.js`, using its `extractTags`. -/
def scanDirSfc (files : List DirEntry) (data : Data) : Data :=
  (files.filter (fun f => jsEndsWith f.fname ".html")).foldl
    (fun d f => extractTagsSfc (basenameNoHtml f.fname) f.doc d) data

/-- `buildStart` of `part_001` (lines 30-43): if the component directory
does not exist (`none`) the hook returns at once; otherwise it scans the
listing into the aggregation state (no reset). -/
def buildStart (componentsDir : Option (List DirEntry)) (data : Data) : Data :=
  match componentsDir with
  | none => data
  | some files => scanDir files data

/-- The initial extraction step of `configureServer` in `part_001`
(lines 88-95): guarded by `fs.existsSync(componentsDir)`, no reset. -/
def configureServerExtract (componentsDir : Option (List DirEntry)) (data : Data) : Data :=
  match componentsDir with
  | none => data
  | some files => scanDir files data

/-- The initial extraction step of `configureServer` in
`vite-plugin-sfc.js` (lines 93-99): guarded by `fs.existsSync`, no reset. -/
def configureServerExtractSfc (componentsDir : Option (List DirEntry)) (data : Data) : Data :=
  match componentsDir with
  | none => data
  | some files => scanDirSfc files data

/-- The watcher change handler of `part_001` (lines 111-133): resets the
three fields of the aggregation state to `''` and re-extracts every file of
a fresh directory listing. -/
def changeHandler (files : List DirEntry) (data : Data) : Data :=
  let data1 : Data := { data with script := "", style := "", template := "" }
  scanDir files data1

/-- The modelled filesystem slice: the contents of the two output
artifacts `app.min.css` and `app.min.js` (`none` = file absent). -/
structure FSState where
  css : Option String
  js : Option String
deriving DecidableEq

/-- `writeDevFiles` of `part_001` (lines 186-199): writes the minified CSS
only when `data.style` is truthy (non-empty), and always writes the
minified concatenation `data.template + ' ' + data.script`.  The two
minifiers are the external pure functions `cssMin` and `jsMin`. -/
def writeDevFiles (cssMin jsMin : String → String) (data : Data) (fs : FSState) : FSState :=
  let fs1 := if data.style ≠ "" then { fs with css := some (cssMin data.style) } else fs
  let combined := data.template ++ " " ++ data.script
  { fs1 with js := some (jsMin combined) }

/-- `writeBundle` of `part_001` (lines 46-70): same artifact contents as
`writeDevFiles` (the `assets` directory creation is not modelled). -/
def writeBundle (cssMin jsMin : String → String) (data : Data) (fs : FSState) : FSState :=
  let fs1 := if data.style ≠ "" then { fs with css := some (cssMin data.style) } else fs
  let combined := data.template ++ " " ++ data.script
  { fs1 with js := some (jsMin combined) }

/-- `writeDevFiles` of `vite-plugin-sfc.js` (lines 178-195): CSS as in
`part_001`; the JS artifact is the raw concatenation in dev mode and the
minified concatenation otherwise. -/
def writeDevFilesSfc (cssMin jsMin : String → String) (isDev : Bool) (data : Data)
    (fs : FSState) : FSState :=
  let fs1 := if data.style ≠ "" then { fs with css := some (cssMin data.style) } else fs
  let combined := data.template ++ " " ++ data.script
  if isDev then { fs1 with js := some combined }
  else { fs1 with js := some (jsMin combined) }

lemma extractTags_template (n : String) (root : ParsedDoc) (d : Data) :
    (extractTags n root d).template =
      d.template ++ (match root.templates.head? with
        | some t => templateInjection n (collapseWs t)
        | none => "") := by
  rcases root with ⟨tps, ss, sts⟩
  cases ss with
  | nil => cases tps <;> cases sts <;> simp [extractTags]
  | cons s ss2 =>
    by_cases h : jsTrim s = "" <;> cases tps <;> cases sts <;> simp [extractTags, h]

lemma extractTagsSfc_template (n : String) (root : ParsedDoc) (d : Data) :
    (extractTagsSfc n root d).template =
      d.template ++ (match root.templates.head? with
        | some t => templateInjectionSfc n (collapseWs t)
        | none => "") := by
  rcases root with ⟨tps, ss, sts⟩
  cases tps <;> cases ss <;> cases sts <;> simp [extractTagsSfc]

lemma extractTags_script (n : String) (root : ParsedDoc) (d : Data) :
    (extractTags n root d).script =
      d.script ++ (match root.scripts.head? with
        | none => ""
        | some s => if jsTrim s = "" then "" else scriptWrapper n (jsTrim s)) := by
  rcases root with ⟨tps, ss, sts⟩
  cases ss with
  | nil => cases tps <;> cases sts <;> simp [extractTags]
  | cons s ss2 =>
    by_cases h : jsTrim s = "" <;> cases tps <;> cases sts <;> simp [extractTags, h]

lemma extractTagsSfc_script (n : String) (root : ParsedDoc) (d : Data) :
    (extractTagsSfc n root d).script =
      d.script ++ (match root.scripts.head? with
        | none => ""
        | some s => s ++ "\n") := by
  rcases root with ⟨tps, ss, sts⟩
  cases tps <;> cases ss <;> cases sts <;> simp [extractTagsSfc, String.append_assoc]

lemma changeHandler_eq (files : List DirEntry) (data : Data) :
    changeHandler files data = scanDir files emptyData := by
  cases data; rfl

/-- Claim C1, counterexample: the claim fails on the `vite-plugin-sfc.js`
variant.  For a component `card` whose script element contains only
whitespace (so its trimmed script section is empty) the variant still
appends a script fragment (the raw text plus a newline), contradicting
"no script fragment is emitted when the trimmed script section is empty". -/
theorem C1_counterexample :
    jsTrim "  " = ""
    ∧ (extractTagsSfc "card" ⟨[], ["  "], []⟩ emptyData).script ≠ emptyData.script := by
  exact ⟨by decide, by decide⟩

/-- Claim C1, amended: in the `part_001` variant, for every component
whose script is non-empty after trimming, the generated script fragment is
`document.querySelectorAll("name").forEach(function(name){body})` — it
selects every element whose tag name equals the component name and runs
the trimmed script body with a variable named exactly the component name
bound to the matched element — and no fragment is appended when the
trimmed script is empty; the `vite-plugin-sfc.js` variant instead appends
the raw script text unwrapped (plus a newline), even when the trimmed
script is empty. -/
theorem C1_amended (name : String) (root : ParsedDoc) (data : Data) :
    ((extractTags name root data).script
      = data.script ++ (match root.scripts.head? with
          | none => ""
          | some s => if jsTrim s = "" then "" else scriptWrapper name (jsTrim s)))
    ∧ ((extractTagsSfc name root data).script
      = data.script ++ (match root.scripts.head? with
          | none => ""
          | some s => s ++ "\n")) :=
  ⟨extractTags_script name root data, extractTagsSfc_script name root data⟩

/-- Claim C2: for every component file with a `<template>` section, the
template-injection fragment appended by `extractTags` injects the
whitespace-collapsed markup, and that injected markup contains no run of
two-or-more consecutive whitespace characters. -/
theorem C2_template_collapsed (name tpl : String) (ts ss sts : List String) (data : Data) :
    (extractTags name ⟨tpl :: ts, ss, sts⟩ data).template
      = data.template ++ templateInjection name (collapseWs tpl)
    ∧ noDoubleWs (collapseWs tpl).data = true := by
  refine ⟨?_, noDoubleWs_collapseWs tpl⟩
  rw [extractTags_template]
  rfl

/-- Claim C3: every output step receives the script text
`templateCode + " " + scriptCode` (space-joined even when a half is
empty), the script artifact is always written (`js` is always `some`),
and aggregating zero components yields the combined script `" "`. -/
theorem C3_combined_script (cssMin jsMin : String → String) (data : Data) (fs : FSState) :
    ((writeDevFiles cssMin jsMin data fs).js = some (jsMin (data.template ++ " " ++ data.script)))
    ∧ ((writeBundle cssMin jsMin data fs).js = some (jsMin (data.template ++ " " ++ data.script)))
    ∧ ((writeDevFilesSfc cssMin jsMin true data fs).js = some (data.template ++ " " ++ data.script))
    ∧ ((writeDevFilesSfc cssMin jsMin false data fs).js
        = some (jsMin (data.template ++ " " ++ data.script)))
    ∧ ((writeDevFiles cssMin jsMin (scanDir [] emptyData) fs).js = some (jsMin " ")) :=
  ⟨rfl, rfl, rfl, rfl, rfl⟩

/-- Claim C4, counterexample: the dev-server-start extraction
(`configureServer`, before the watcher is installed) does **not** reset
the aggregation state: run over the same single-file listing, it produces
different script aggregates from a dirty state and from the empty state,
so the fields do not always equal the fragments of exactly the files
present at the trigger. -/
theorem C4_counterexample :
    (configureServerExtract (some [⟨"card.html", ⟨[], ["let x = 1"], []⟩⟩])
        ⟨"LEFTOVER", "", ""⟩).script
      ≠ (configureServerExtract (some [⟨"card.html", ⟨[], ["let x = 1"], []⟩⟩])
          emptyData).script := by
  decide

/-- Claim C4, amended: only the file-change trigger has full-replace
semantics: the watcher change handler first resets the three fields to
empty and then repopulates from the fresh listing, so its result is the
scan of the listed files from the empty state, independent of the prior
aggregation state; the program-start and dev-server-start extraction
paths append to the existing state without resetting it. -/
theorem C4_amended (files : List DirEntry) (data : Data) :
    changeHandler files data = scanDir files emptyData :=
  changeHandler_eq files data

/-- Claim C5: two consecutive change-triggered rebuilds over an unchanged
component listing write byte-identical artifacts: re-running the rebuild
and the write on top of the first rebuild's output leaves the output
filesystem state unchanged. -/
theorem C5_rebuild_idempotent (cssMin jsMin : String → String) (files : List DirEntry)
    (data : Data) (fs : FSState) :
    writeDevFiles cssMin jsMin (changeHandler files (changeHandler files data))
        (writeDevFiles cssMin jsMin (changeHandler files data) fs)
      = writeDevFiles cssMin jsMin (changeHandler files data) fs := by
  rw [changeHandler_eq files (changeHandler files data), changeHandler_eq files data]
  by_cases h : (scanDir files emptyData).style = "" <;> simp [writeDevFiles, h]

/-- Claim C6: a missing component directory (`none`) makes the scan a
no-op in the production `buildStart` path and in both variants'
dev-server paths, and starting from the fresh state it leaves the
aggregates empty — absence is treated as empty input, not an error. -/
theorem C6_missing_dir (data : Data) :
    buildStart none data = data
    ∧ configureServerExtract none data = data
    ∧ configureServerExtractSfc none data = data
    ∧ buildStart none emptyData = emptyData :=
  ⟨rfl, rfl, rfl, rfl⟩

/-- Claim C7: in every writer, the style artifact is written (as the
minified style text) exactly when the aggregated style text is non-empty;
when it is empty, the style artifact on disk is left unchanged. -/
theorem C7_style_frame (cssMin jsMin : String → String) (isDev : Bool) (data : Data)
    (fs : FSState) :
    ((writeDevFiles cssMin jsMin data fs).css
        = if data.style = "" then fs.css else some (cssMin data.style))
    ∧ ((writeBundle cssMin jsMin data fs).css
        = if data.style = "" then fs.css else some (cssMin data.style))
    ∧ ((writeDevFilesSfc cssMin jsMin isDev data fs).css
        = if data.style = "" then fs.css else some (cssMin data.style)) := by
  by_cases h : data.style = "" <;> cases isDev <;>
    simp [writeDevFiles, writeBundle, writeDevFilesSfc, h]

/-- Claim C8, counterexample: the claim fails on the `vite-plugin-sfc.js`
variant.  For a component `card` with script element text `" x "`, the
script text used downstream is the untrimmed `" x "` (appended as
`" x \n"`), not the trimmed `"x"`. -/
theorem C8_counterexample :
    (extractTagsSfc "card" ⟨[], [" x "], []⟩ emptyData).script = " x \n"
    ∧ jsTrim " x " = "x"
    ∧ (" x \n" : String) ≠ "x" ++ "\n" := by
  exact ⟨by decide, by decide, by decide⟩

/-- Claim C8, amended: in the `part_001` variant the script text used
downstream is the element's inner text with leading and trailing
whitespace trimmed (embedded as the wrapper body); the
`vite-plugin-sfc.js` variant uses the inner text untrimmed. -/
theorem C8_amended (name s : String) (tps ss sts : List String) (data : Data)
    (h : jsTrim s ≠ "") :
    (extractTags name ⟨tps, s :: ss, sts⟩ data).script
      = data.script ++ scriptWrapper name (jsTrim s)
    ∧ (extractTagsSfc name ⟨tps, s :: ss, sts⟩ data).script
      = data.script ++ (s ++ "\n") := by
  constructor
  · rw [extractTags_script]
    simp [h]
  · rw [extractTagsSfc_script]
    rfl

/-- Witness for `C8_amended` at the concrete component `card` with script
text `" x "`. -/
theorem C8_witness :
    (extractTags "card" ⟨[], [" x "], []⟩ emptyData).script
      = emptyData.script ++ scriptWrapper "card" (jsTrim " x ")
    ∧ (extractTagsSfc "card" ⟨[], [" x "], []⟩ emptyData).script
      = emptyData.script ++ (" x " ++ "\n") :=
  C8_amended "card" " x " [] [] [] emptyData (by decide)

/-- Claim C9: the two plugin variants generate character-for-character
identical template-injection fragments, and their template aggregates
agree on every component input. -/
theorem C9_template_equal (name tpl : String) (root : ParsedDoc) (data : Data) :
    templateInjection name (collapseWs tpl) = templateInjectionSfc name (collapseWs tpl)
    ∧ (extractTags name root data).template = (extractTagsSfc name root data).template := by
  refine ⟨rfl, ?_⟩
  rw [extractTags_template, extractTagsSfc_template]
  cases root.templates.head? <;> rfl

/-- Claim C10: in both variants extraction depends only on the first
`<template>`, `<script>` and `<style>` element of a component file: two
parsed files with the same first element of each kind extract
identically, so every later element of the same kind contributes nothing
to any aggregate field. -/
theorem C10_first_only (name : String) (d1 d2 : ParsedDoc) (data : Data)
    (ht : d1.templates.head? = d2.templates.head?)
    (hs : d1.scripts.head? = d2.scripts.head?)
    (hy : d1.styles.head? = d2.styles.head?) :
    extractTags name d1 data = extractTags name d2 data
    ∧ extractTagsSfc name d1 data = extractTagsSfc name d2 data := by
  constructor
  · unfold extractTags; rw [ht, hs, hy]
  · unfold extractTagsSfc; rw [ht, hs, hy]

/-- Witness for `C10_first_only`: a component file with two elements of
each kind extracts exactly like the file holding only the first of each. -/
theorem C10_witness :
    extractTags "card" ⟨["<b>a</b>", "IGNORED"], ["x=1", "IGNORED"], ["p \x7b \x7d", "IGNORED"]⟩
        emptyData
      = extractTags "card" ⟨["<b>a</b>"], ["x=1"], ["p \x7b \x7d"]⟩ emptyData
    ∧ extractTagsSfc "card" ⟨["<b>a</b>", "IGNORED"], ["x=1", "IGNORED"], ["p \x7b \x7d", "IGNORED"]⟩
        emptyData
      = extractTagsSfc "card" ⟨["<b>a</b>"], ["x=1"], ["p \x7b \x7d"]⟩ emptyData :=
  C10_first_only "card" _ _ emptyData rfl rfl rfl
